import Mathlib

/-!
Verification development for the YTShorts-This-Day-in-History repository.

The definitions below are a shallow embedding of the Python sources under
`src/tdih/`: the file-backed event store (`storage.py`), the slide generator
(`slide_generator.py`), the generation orchestrator (`main.py`), the settings
initialisation (`config.py`) and the legacy `Event` dataclass (`models.py`).

Machine-level details are modelled as follows: byte buffers are `List Nat`,
calendar dates are day ordinals (`Nat`) where arithmetic on them matters and
date strings otherwise, UUIDs are strings, JSON documents are an explicit
`Json` inductive, and the file system is an association list from structured
file keys to file contents.  Python exceptions are `Except`/`Option` failure.
-/

/-- JSON documents, as produced by `model_dump_json` and consumed by
`model_validate_json` in `src/tdih/storage.py`.  Numeric segment timings are
modelled as integers. -/
inductive Json where
  | null : Json
  | str : String → Json
  | num : Int → Json
  | arr : List Json → Json
  | obj : List (String × Json) → Json

/-- One timed transcript segment (`start`, `end`, `text`), as read by
`slide_generator.py` from `transcription.segments`. -/
structure Segment where
  start : Int
  stop : Int
  text : String
deriving DecidableEq, Repr

/-- A verbose transcription: overall duration plus the ordered timed
segments, mirroring the `openai` `Transcription` object used by the
pipeline. -/
structure Transcription where
  duration : Int
  segments : List Segment
deriving DecidableEq, Repr

/-- Modelled from the spec: the Event record of §3 of the specification.
`src/tdih/main.py`, `src/tdih/storage.py` and `src/tdih/slide_generator.py`
all use an `Event` class with the fields below (`title`, `description`,
`tags`, `tts_file_path`, `tts_duration`, `transcription_file_path`,
`images_paths`, pydantic `model_dump_json`/`model_validate_json`), but the
`models.py` present in the source tree holds an older, incompatible dataclass
(embedded separately as `ModelsPy.Event`).  The record layout here follows
the spec's §3 data model and the field accesses of the callers. -/
structure Event where
  id : String
  date : String
  text : Option String := none
  title : Option String := none
  description : Option String := none
  tags : Option (List String) := none
  text_file_path : Option String := none
  tts_file_path : Option String := none
  tts_duration : Option Int := none
  transcription : Option Transcription := none
  transcription_file_path : Option String := none
  images_paths : Option (List String) := none
  video_file_path : Option String := none
deriving DecidableEq, Repr

/-- Encoding of an optional string field (`null` when unset). -/
def encOptStr : Option String → Json
  | none => Json.null
  | some s => Json.str s

/-- Decoding of an optional string field. -/
def decOptStr : Json → Option (Option String)
  | Json.null => some none
  | Json.str s => some (some s)
  | _ => none

/-- Decoding of a mandatory string field. -/
def decStr : Json → Option String
  | Json.str s => some s
  | _ => none

/-- Encoding of an optional integer field. -/
def encOptInt : Option Int → Json
  | none => Json.null
  | some n => Json.num n

/-- Decoding of an optional integer field. -/
def decOptInt : Json → Option (Option Int)
  | Json.null => some none
  | Json.num n => some (some n)
  | _ => none

/-- Decoding a list of strings, failing on the first non-string element. -/
def decStrList : List Json → Option (List String)
  | [] => some []
  | j :: rest =>
    match decStr j with
    | none => none
    | some s => (decStrList rest).map (fun xs => s :: xs)

/-- Encoding of an optional list of strings, preserving order. -/
def encOptStrList : Option (List String) → Json
  | none => Json.null
  | some xs => Json.arr (xs.map Json.str)

/-- Decoding of an optional list of strings. -/
def decOptStrList : Json → Option (Option (List String))
  | Json.null => some none
  | Json.arr xs => (decStrList xs).map some
  | _ => none

/-- Encoding of one transcript segment. -/
def encSegment (s : Segment) : Json :=
  Json.obj [("start", Json.num s.start), ("end", Json.num s.stop),
            ("text", Json.str s.text)]

/-- Decoding of one transcript segment. -/
def decSegment : Json → Option Segment
  | Json.obj [("start", Json.num a), ("end", Json.num b),
              ("text", Json.str t)] => some ⟨a, b, t⟩
  | _ => none

/-- Decoding a list of segments, failing on the first bad element. -/
def decSegList : List Json → Option (List Segment)
  | [] => some []
  | j :: rest =>
    match decSegment j with
    | none => none
    | some s => (decSegList rest).map (fun xs => s :: xs)

/-- Encoding of a transcription (duration plus ordered segments). -/
def encTranscription (tr : Transcription) : Json :=
  Json.obj [("duration", Json.num tr.duration),
            ("segments", Json.arr (tr.segments.map encSegment))]

/-- Decoding of a transcription. -/
def decTranscription : Json → Option Transcription
  | Json.obj [("duration", Json.num d), ("segments", Json.arr js)] =>
    (decSegList js).map (fun segs => ⟨d, segs⟩)
  | _ => none

/-- Encoding of an optional transcription field. -/
def encOptTranscription : Option Transcription → Json
  | none => Json.null
  | some tr => encTranscription tr

/-- Decoding of an optional transcription field. -/
def decOptTranscription : Json → Option (Option Transcription)
  | Json.null => some none
  | j => (decTranscription j).map some

/-- Serialization of the full Event record, mirroring
`event.model_dump_json` in `LocalEventsFileStorage.dump_event`. -/
def encodeEvent (e : Event) : Json :=
  Json.obj [("id", Json.str e.id), ("date", Json.str e.date),
            ("text", encOptStr e.text), ("title", encOptStr e.title),
            ("description", encOptStr e.description),
            ("tags", encOptStrList e.tags),
            ("text_file_path", encOptStr e.text_file_path),
            ("tts_file_path", encOptStr e.tts_file_path),
            ("tts_duration", encOptInt e.tts_duration),
            ("transcription", encOptTranscription e.transcription),
            ("transcription_file_path", encOptStr e.transcription_file_path),
            ("images_paths", encOptStrList e.images_paths),
            ("video_file_path", encOptStr e.video_file_path)]

/-- First value bound to key `k` in a JSON object's field list. -/
def jlookup (fields : List (String × Json)) (k : String) : Option Json :=
  match fields with
  | [] => none
  | (k', v) :: rest => if k' = k then some v else jlookup rest k

/-- Look up field `k` and decode it with `d`. -/
def jget (fields : List (String × Json)) (k : String)
    (d : Json → Option α) : Option α :=
  match jlookup fields k with
  | none => none
  | some j => d j

/-- Deserialization of an Event record, mirroring
`Event.model_validate_json` in `LocalEventsFileStorage.load_events`; any
malformed document yields `none` (a pydantic `ValidationError`). -/
def decodeEvent : Json → Option Event
  | Json.obj fields => do
    let id ← jget fields "id" decStr
    let date ← jget fields "date" decStr
    let text ← jget fields "text" decOptStr
    let title ← jget fields "title" decOptStr
    let description ← jget fields "description" decOptStr
    let tags ← jget fields "tags" decOptStrList
    let text_file_path ← jget fields "text_file_path" decOptStr
    let tts_file_path ← jget fields "tts_file_path" decOptStr
    let tts_duration ← jget fields "tts_duration" decOptInt
    let transcription ← jget fields "transcription" decOptTranscription
    let transcription_file_path ← jget fields "transcription_file_path" decOptStr
    let images_paths ← jget fields "images_paths" decOptStrList
    let video_file_path ← jget fields "video_file_path" decOptStr
    pure { id, date, text, title, description, tags, text_file_path,
           tts_file_path, tts_duration, transcription,
           transcription_file_path, images_paths, video_file_path }
  | _ => none

/-- The role of a file inside one event's directory
`<events_root>/<date>/<id>/`, following the on-disk layout of
`LocalEventsFileStorage` (`event.json`, `text.txt`, `tts.mp3`,
`transcription.json`, `images/<name>`, `video.mp4`). -/
inductive EFile where
  | eventJson : EFile
  | textTxt : EFile
  | ttsMp3 : EFile
  | transcriptionJson : EFile
  | image : String → EFile
  | videoMp4 : EFile
deriving DecidableEq, Repr

/-- Location of one file: generation date directory, event id directory and
the file inside it. -/
structure FKey where
  date : String
  id : String
  file : EFile
deriving DecidableEq, Repr

/-- Contents of one stored file: UTF-8 text, binary bytes, or a JSON
document. -/
inductive FileData where
  | textF : String → FileData
  | binF : List Nat → FileData
  | jsonF : Json → FileData

/-- The file system under the events root, as an ordered association list
(order models the glob/iteration order of the directory tree). -/
abbrev Store : Type := List (FKey × FileData)

/-- The empty events root. -/
def emptyStore : Store := []

/-- Write a file, overwriting the previous contents if the path already
exists (Python `open(..., "w")`). -/
def setFile (s : Store) (k : FKey) (v : FileData) : Store :=
  if s.any (fun p => p.1 = k) then
    s.map (fun p => if p.1 = k then (k, v) else p)
  else
    s ++ [(k, v)]

/-- Relative path string of a file, mirroring the `get_event_*_path`
helpers of `LocalEventsFileStorage`: paths are relative to the project root,
so they start with the events directory name `videos`. -/
def pathOf (date id : String) : EFile → String
  | EFile.eventJson => "videos/" ++ date ++ "/" ++ id ++ "/event.json"
  | EFile.textTxt => "videos/" ++ date ++ "/" ++ id ++ "/text.txt"
  | EFile.ttsMp3 => "videos/" ++ date ++ "/" ++ id ++ "/tts.mp3"
  | EFile.transcriptionJson =>
      "videos/" ++ date ++ "/" ++ id ++ "/transcription.json"
  | EFile.image name => "videos/" ++ date ++ "/" ++ id ++ "/images/" ++ name
  | EFile.videoMp4 => "videos/" ++ date ++ "/" ++ id ++ "/video.mp4"

/-- `LocalEventsFileStorage.dump_event`: serialize the full event record to
`event.json` in the event's directory (full overwrite, last writer wins). -/
def dump_event (s : Store) (e : Event) : Store :=
  setFile s ⟨e.date, e.id, EFile.eventJson⟩ (FileData.jsonF (encodeEvent e))

/-- Parsing of one stored file as an Event record
(`Event.model_validate_json(f.read())`). -/
def decFile : FileData → Option Event
  | FileData.jsonF j => decodeEvent j
  | _ => none

/-- The `event.json` files matched by the glob `<date>/*/event.json`, in
store order. -/
def eventFiles (s : Store) (d : String) : List FileData :=
  (s.filter (fun p => decide (p.1.date = d ∧ p.1.file = EFile.eventJson))).map
    (fun p => p.2)

/-- The parse loop of `load_events`: deserialize each matched record in
order; there is no exception handler in the source, so the first record
that fails to validate aborts the whole load (`none`). -/
def parseAll : List FileData → Option (List Event)
  | [] => some []
  | f :: rest =>
    match decFile f with
    | none => none
    | some e => (parseAll rest).map (fun es => e :: es)

/-- `LocalEventsFileStorage.load_events`: glob `<date>/*/event.json` and
deserialize each file. -/
def load_events (s : Store) (d : String) : Option (List Event) :=
  parseAll (eventFiles s d)

/-- `LocalEventsFileStorage.save_event_text`: write the narration text to
`text.txt` and return its path. -/
def save_event_text (s : Store) (date id : String) (text : String) :
    Store × String :=
  (setFile s ⟨date, id, EFile.textTxt⟩ (FileData.textF text),
   pathOf date id EFile.textTxt)

/-- `LocalEventsFileStorage.save_event_tts`: the guard `if not tts` raises
`ValueError("TTS is empty")`.  A Python `io.BytesIO` defines neither
`__bool__` nor `__len__`, so every buffer — including a zero-byte one — is
truthy; only `None` fails the guard.  A non-`None` buffer is written to
`tts.mp3` whatever its length. -/
def save_event_tts (s : Store) (date id : String) (tts : Option (List Nat)) :
    Except String (Store × String) :=
  match tts with
  | none => Except.error "TTS is empty"
  | some buf =>
    Except.ok (setFile s ⟨date, id, EFile.ttsMp3⟩ (FileData.binF buf),
               pathOf date id EFile.ttsMp3)

/-- `LocalEventsFileStorage.save_event_transcription`: serialize the
transcription to `transcription.json` and return its path. -/
def save_event_transcription (s : Store) (date id : String)
    (tr : Transcription) : Store × String :=
  (setFile s ⟨date, id, EFile.transcriptionJson⟩
     (FileData.jsonF (encTranscription tr)),
   pathOf date id EFile.transcriptionJson)

/-- `LocalEventsFileStorage.save_event_images`: write each named buffer
under `images/<name>` in input order and return the paths in the same
order. -/
def save_event_images (s : Store) (date id : String)
    (images : List (String × List Nat)) : Store × List String :=
  match images with
  | [] => (s, [])
  | (name, buf) :: rest =>
    let s' := setFile s ⟨date, id, EFile.image name⟩ (FileData.binF buf)
    let (s'', paths) := save_event_images s' date id rest
    (s'', pathOf date id (EFile.image name) :: paths)

/-- The `Slide` dataclass of `src/tdih/models.py` (without the moviepy clip
handle, an external rendering object). -/
structure Slide where
  duration : Int
  text : String
  text_color : String := "white"
  background_color : String := "black"
  background_image : Option String := none
deriving DecidableEq, Repr

/-- The Python exceptions that `SlideGenerator.generate_slides` can raise. -/
inductive PyErr where
  | valueError : String → PyErr
  | zeroDivisionError : PyErr
  | indexError : PyErr
deriving DecidableEq, Repr

/-- Python `idx % len` on naturals: raises `ZeroDivisionError` when the
modulus is zero. -/
def pyMod (a b : Nat) : Option Nat :=
  if b = 0 then none else some (a % b)

/-- The `for idx, segment in enumerate(...)` loop of
`SlideGenerator.generate_slides`: one slide per segment, whose background is
`images_paths[idx % len(images_paths)]`; the modulo and the list indexing
are kept fallible so that totality is a theorem, not an assumption. -/
def buildSlides (imgs : List String) : Nat → List Segment →
    Except PyErr (List Slide)
  | _, [] => Except.ok []
  | idx, seg :: rest =>
    match pyMod idx imgs.length with
    | none => Except.error PyErr.zeroDivisionError
    | some j =>
      match imgs.get? j with
      | none => Except.error PyErr.indexError
      | some img =>
        (buildSlides imgs (idx + 1) rest).map
          (fun slides =>
            { duration := seg.stop - seg.start, text := seg.text,
              background_image := some img } :: slides)

/-- `SlideGenerator.generate_slides` (src/tdih/slide_generator.py): raises
`ValueError` when the transcription is absent (`not event.transcription`) or
when the image list is absent or empty (`not event.images_paths`), else
builds one slide per transcript segment with cyclically reused images. -/
def generate_slides (ev : Event) : Except PyErr (List Slide) :=
  match ev.transcription with
  | none => Except.error (PyErr.valueError "Valid transcription is required")
  | some tr =>
    match ev.images_paths with
    | none => Except.error (PyErr.valueError "Event must have images")
    | some imgs =>
      if imgs.isEmpty then
        Except.error (PyErr.valueError "Event must have images")
      else buildSlides imgs 0 tr.segments

/-- The slide list of the happy path, written totally: used to state what
`buildSlides` produces when the image list is non-empty. -/
def slidesOf (imgs : List String) : Nat → List Segment → List Slide
  | _, [] => []
  | idx, seg :: rest =>
    { duration := seg.stop - seg.start, text := seg.text,
      background_image := some (imgs.getD (idx % imgs.length) "") } ::
      slidesOf imgs (idx + 1) rest

namespace ModelsPy

/-- The single UUID drawn by `uuid.uuid4()` when the class body of the
`Event` dataclass in `src/tdih/models.py` is evaluated: a dataclass field
default expression runs once, at class-definition time, not once per
instance. -/
def uuid4AtClassDefinition : String := "6ba7b811-9dad-11d1-80b4-00c04fd430c0"

/-- The `Event` dataclass of `src/tdih/models.py` (lines 32-57).  Its `id`
field is declared `id: uuid.UUID = uuid.uuid4()`, so every construction
that omits `id` receives the same `uuid4AtClassDefinition` value. -/
structure Event where
  date : String
  event_path : String
  text : Option String := none
  duration : Int := 0
  text_file_path : Option String := none
  transcription : Option Transcription := none
  speech_file_path : Option String := none
  video_file_path : Option String := none
  images : Option (List String) := none
  id : String := uuid4AtClassDefinition
deriving DecidableEq, Repr

/-- Constructing a `models.py` Event without passing an explicit `id`. -/
def mkDefault (date event_path : String) : Event := { date, event_path }

end ModelsPy

/-- `Settings.__post_init__` (src/tdih/config.py line 85) computes the
per-run date field `today` as `datetime.date.today() +
datetime.timedelta(days=1)`; calendar dates are modelled as day ordinals. -/
def settings_post_init_today (date_today : Nat) : Nat := date_today + 1

/-- Outcomes of the provider calls of one batch slot: `none` models a raised
provider error or timeout.  `tts_r = some none` models the speech service
returning `None` (non-success without an exception). -/
structure StepOutcomes where
  text_r : Option String
  approved : Bool
  title_r : Option String
  description_r : Option String
  tags_r : Option (List String)
  tts_r : Option (Option (List Nat))
  transcription_r : Option Transcription
  images_r : Option (List (String × List Nat))

/-- Observable actions of `generate_events`: the text-service call with its
existing-texts argument, and the storage writes, in program order. -/
inductive Op where
  | textCall : List String → Op
  | saveText : String → String → String → Op
  | saveTts : String → String → List Nat → Op
  | saveTranscription : String → String → Transcription → Op
  | saveImages : String → String → List (String × List Nat) → Op
  | dumpEvent : Event → Op
deriving DecidableEq, Repr

/-- The fully mutated event record dumped at the end of a successful slot
of `generate_events` (src/tdih/main.py lines 195-240). -/
def builtEvent (date id text title description : String) (tags : List String)
    (tr : Transcription) (imgs : List (String × List Nat)) : Event :=
  { id, date, text := some text, title := some title,
    description := some description, tags := some tags,
    text_file_path := some (pathOf date id EFile.textTxt),
    tts_file_path := some (pathOf date id EFile.ttsMp3),
    tts_duration := some tr.duration,
    transcription := some tr,
    transcription_file_path := some (pathOf date id EFile.transcriptionJson),
    images_paths := some (imgs.map (fun im => pathOf date id (EFile.image im.1))),
    video_file_path := none }

/-- One slot of the batch loop of `generate_events` (src/tdih/main.py lines
184-240): emits the observable ops and returns the updated
duplicate-avoidance list, or `none` when an uncaught exception aborts the
run.  The generated text is appended to the duplicate-avoidance list before
the approval gate, exactly as in the source. -/
def runSlot (approveMode : Bool) (date id : String) (o : StepOutcomes)
    (texts : List String) : List Op × Option (List String) :=
  match o.text_r with
  | none => ([Op.textCall texts], none)
  | some t =>
    let texts' := texts ++ [t]
    if approveMode && !o.approved then
      ([Op.textCall texts], some texts')
    else
      match o.title_r with
      | none => ([Op.textCall texts, Op.saveText date id t], none)
      | some title =>
        match o.description_r with
        | none => ([Op.textCall texts, Op.saveText date id t], none)
        | some description =>
          match o.tags_r with
          | none => ([Op.textCall texts, Op.saveText date id t], none)
          | some tags =>
            match o.tts_r with
            | none => ([Op.textCall texts, Op.saveText date id t], none)
            | some none => ([Op.textCall texts, Op.saveText date id t], none)
            | some (some buf) =>
              match o.transcription_r with
              | none =>
                ([Op.textCall texts, Op.saveText date id t,
                  Op.saveTts date id buf], none)
              | some tr =>
                match o.images_r with
                | none =>
                  ([Op.textCall texts, Op.saveText date id t,
                    Op.saveTts date id buf, Op.saveTranscription date id tr],
                   none)
                | some imgs =>
                  ([Op.textCall texts, Op.saveText date id t,
                    Op.saveTts date id buf, Op.saveTranscription date id tr,
                    Op.saveImages date id imgs,
                    Op.dumpEvent
                      (builtEvent date id t title description tags tr imgs)],
                   some texts')

/-- The batch loop `for i in range(num_events)` of `generate_events`:
process slots `first, first + 1, ...` with `fuel` slots remaining, and
report the emitted ops together with whether an uncaught exception aborted
the run before all slots were attempted. -/
def runSlots (approveMode : Bool) (date : String) (ids : Nat → String)
    (outs : Nat → StepOutcomes) : Nat → Nat → List String → List Op × Bool
  | _, 0, _ => ([], false)
  | first, fuel + 1, texts =>
    let r := runSlot approveMode date (ids first) (outs first) texts
    match r.2 with
    | none => (r.1, true)
    | some texts' =>
      let rest := runSlots approveMode date ids outs (first + 1) fuel texts'
      (r.1 ++ rest.1, rest.2)

/-- `generate_events` (src/tdih/main.py lines 155-240): run `num_events`
slots sequentially, starting from an empty duplicate-avoidance list; there
is no exception handler around the per-slot steps. -/
def generate_events (approveMode : Bool) (date : String) (ids : Nat → String)
    (outs : Nat → StepOutcomes) (num_events : Nat) : List Op × Bool :=
  runSlots approveMode date ids outs 0 num_events []

/-- The existing-texts arguments of the text-service calls of a trace, in
call order. -/
def textCalls (ops : List Op) : List (List String) :=
  ops.filterMap (fun op =>
    match op with
    | Op.textCall args => some args
    | _ => none)

/-- Number of full-record (`event.json`) dumps in a trace. -/
def countDumps (ops : List Op) : Nat :=
  (ops.filter (fun op =>
    match op with
    | Op.dumpEvent _ => true
    | _ => false)).length

/-- Effect of one op on the file store. -/
def applyOp (s : Store) : Op → Store
  | Op.textCall _ => s
  | Op.saveText d i t => (save_event_text s d i t).1
  | Op.saveTts d i b => setFile s ⟨d, i, EFile.ttsMp3⟩ (FileData.binF b)
  | Op.saveTranscription d i tr => (save_event_transcription s d i tr).1
  | Op.saveImages d i imgs => (save_event_images s d i imgs).1
  | Op.dumpEvent e => dump_event s e

/-- Replay a trace prefix on a store: the on-disk state visible at a crash
point. -/
def applyOps (s : Store) (ops : List Op) : Store := ops.foldl applyOp s

/-- A slot whose provider steps all succeed (with the speech call returning
actual audio) — the slot runs to its final `dump_event`. -/
def slotOk (o : StepOutcomes) : Bool :=
  o.text_r.isSome && o.title_r.isSome && o.description_r.isSome &&
  o.tags_r.isSome && (o.tts_r.getD none).isSome &&
  o.transcription_r.isSome && o.images_r.isSome

/-- The record dumped for a successful slot, in terms of its outcomes. -/
def slotEvent (date id : String) (o : StepOutcomes) : Event :=
  builtEvent date id (o.text_r.getD "") (o.title_r.getD "")
    (o.description_r.getD "") (o.tags_r.getD [])
    (o.transcription_r.getD ⟨0, []⟩) (o.images_r.getD [])

/-- The op sequence of one fully successful slot. -/
def fullSlotOps (date id : String) (o : StepOutcomes) (texts : List String) :
    List Op :=
  [Op.textCall texts, Op.saveText date id (o.text_r.getD ""),
   Op.saveTts date id ((o.tts_r.getD none).getD []),
   Op.saveTranscription date id (o.transcription_r.getD ⟨0, []⟩),
   Op.saveImages date id (o.images_r.getD []),
   Op.dumpEvent (slotEvent date id o)]

/-- A slot where every provider call succeeds. -/
def okOut : StepOutcomes :=
  { text_r := some "text0", approved := true, title_r := some "Title",
    description_r := some "Desc", tags_r := some ["history", "ai"],
    tts_r := some (some [1, 2, 3]),
    transcription_r := some ⟨4, [⟨0, 2, "segment one"⟩, ⟨2, 4, "segment two"⟩]⟩,
    images_r := some [("0_image_0.png", [9]), ("1_image_0.png", [8])] }

/-- A slot whose speech call returns no audio, so `save_event_tts` raises
inside the loop. -/
def badTtsOut : StepOutcomes := { okOut with tts_r := some none }

/-- Successful slots with pairwise distinct generated texts. -/
def outsIndexed : Nat → StepOutcomes :=
  fun i => { okOut with text_r := some ("t" ++ toString i) }

/-- A well-formed stored event record. -/
def goodEvent : Event := { id := "e1", date := "2024-01-01", text := some "ok" }

/-- A date directory holding one valid and one corrupt `event.json`. -/
def mixedStore : Store :=
  [(⟨"2024-01-01", "e1", EFile.eventJson⟩, FileData.jsonF (encodeEvent goodEvent)),
   (⟨"2024-01-01", "e2", EFile.eventJson⟩, FileData.textF "not json")]

/-- Five timed transcript segments. -/
def fiveSegments : List Segment :=
  [⟨0, 1, "s1"⟩, ⟨1, 2, "s2"⟩, ⟨2, 3, "s3"⟩, ⟨3, 4, "s4"⟩, ⟨4, 5, "s5"⟩]

/-- Three image paths `A`, `B`, `C`. -/
def threeImages : List String := ["A", "B", "C"]

/-- Three named image buffers `A`, `B`, `C`. -/
def threeBuffers : List (String × List Nat) :=
  [("A", [1]), ("B", [2]), ("C", [3])]

/-- An event with a five-segment transcription and three images. -/
def evFiveSegs : Event :=
  { id := "w1", date := "2024-01-01",
    transcription := some ⟨5, fiveSegments⟩,
    images_paths := some threeImages }

/-- Slot ids for concrete batch runs. -/
def idsFun : Nat → String := fun i => toString i

/-- A batch where only slot 1 fails (its speech call returns `None`). -/
def outsOneBadTts : Nat → StepOutcomes :=
  fun i => if i = 1 then badTtsOut else outsIndexed i

/-- The texts produced by the text-service calls of the `m` slots
`first, ..., first + m - 1`, in generation order. -/
def producedTexts (outs : Nat → StepOutcomes) (first m : Nat) : List String :=
  (List.range m).map (fun j => ((outs (first + j)).text_r).getD "")

theorem decOptStr_enc (x : Option String) : decOptStr (encOptStr x) = some x := by
  cases x <;> rfl

theorem decOptInt_enc (x : Option Int) : decOptInt (encOptInt x) = some x := by
  cases x <;> rfl

theorem decStrList_map (xs : List String) :
    decStrList (xs.map Json.str) = some xs := by
  induction xs with
  | nil => rfl
  | cons a l ih => simp [decStrList, decStr, ih]

theorem decOptStrList_enc (x : Option (List String)) :
    decOptStrList (encOptStrList x) = some x := by
  cases x with
  | none => rfl
  | some xs => simp [encOptStrList, decOptStrList, decStrList_map]

theorem decSegList_map (xs : List Segment) :
    decSegList (xs.map encSegment) = some xs := by
  induction xs with
  | nil => rfl
  | cons a l ih => simp [decSegList, encSegment, decSegment, ih]

theorem decTranscription_enc (tr : Transcription) :
    decTranscription (encTranscription tr) = some tr := by
  simp [encTranscription, decTranscription, decSegList_map]

theorem decOptTranscription_enc (x : Option Transcription) :
    decOptTranscription (encOptTranscription x) = some x := by
  cases x with
  | none => rfl
  | some tr =>
    simp only [encOptTranscription, decOptTranscription]
    cases tr with
    | mk d segs => simp [encTranscription, decTranscription, decSegList_map]

set_option maxHeartbeats 1000000 in
/-- Serialization is the exact inverse of deserialization on every Event
record. -/
theorem decodeEvent_encodeEvent (e : Event) :
    decodeEvent (encodeEvent e) = some e := by
  cases e
  simp [encodeEvent, decodeEvent, jget, jlookup, decStr, decOptStr_enc,
        decOptInt_enc, decOptStrList_enc, decOptTranscription_enc]

theorem parseAll_eq_some (files : List FileData) (es : List Event) :
    parseAll files = some es ↔ files.map decFile = es.map some := by
  induction files generalizing es with
  | nil =>
    cases es <;> simp [parseAll]
  | cons f rest ih =>
    cases hd : decFile f with
    | none =>
      cases es <;> simp [parseAll, hd]
    | some e =>
      cases es with
      | nil =>
        simp [parseAll, hd]
      | cons e' es' =>
        simp [parseAll, hd, ih es']
        aesop

/-- C1: round-trip persistence.  For every Event record, with any subset of
its optional content fields populated, `dump_event` followed by
`load_events` on the same date returns a list containing an Event equal to
the one saved: serialization preserves the text, the order of the tags, the
transcription segments and the order of the image paths losslessly. -/
theorem event_record_roundtrip (e : Event) :
    load_events (dump_event emptyStore e) e.date = some [e] := by
  simp [load_events, dump_event, emptyStore, setFile, eventFiles, parseAll,
        decFile, decodeEvent_encodeEvent]

/-- C2 counterexample: a date directory holding one valid record (which
deserializes to `goodEvent`) and one corrupt record makes `load_events`
fail outright (`none`) instead of returning the valid sibling — there is no
exception handler in the load loop of `LocalEventsFileStorage.load_events`. -/
theorem load_events_corrupt_aborts :
    decFile (FileData.jsonF (encodeEvent goodEvent)) = some goodEvent ∧
    load_events mixedStore "2024-01-01" = none := by
  exact ⟨decodeEvent_encodeEvent goodEvent, rfl⟩

/-- C2 (amended): `load_events(date)` succeeds exactly when every
`event.json` under the date deserializes, in which case it returns all of
them in glob order; an unparseable record is not skipped — the parse error
aborts the whole load, and the valid sibling records are omitted as well. -/
theorem load_events_all_or_nothing (s : Store) (d : String) (es : List Event) :
    load_events s d = some es ↔ (eventFiles s d).map decFile = es.map some :=
  parseAll_eq_some _ _

/-- C6 counterexample: a zero-byte audio buffer is truthy for `BytesIO`
(the class defines neither `__bool__` nor `__len__`), so
`save_event_tts` raises nothing and creates an empty `tts.mp3` — the
artifact is written even though no audio bytes were supplied. -/
theorem save_event_tts_empty_buffer_writes :
    save_event_tts emptyStore "2024-01-01" "e1" (some []) =
      Except.ok ([(⟨"2024-01-01", "e1", EFile.ttsMp3⟩, FileData.binF [])],
                 pathOf "2024-01-01" "e1" EFile.ttsMp3) := rfl

/-- C6 (amended): `save_event_tts` fails with the empty-artifact error
(`ValueError("TTS is empty")`) and creates no file exactly when the audio
argument is absent (`None`); any actual buffer — a zero-byte one included —
is written to `tts.mp3`. -/
theorem save_event_tts_none_iff_error (s : Store) (date id : String)
    (tts : Option (List Nat)) :
    (tts = none → save_event_tts s date id tts = Except.error "TTS is empty") ∧
    (∀ buf, tts = some buf →
      save_event_tts s date id tts =
        Except.ok (setFile s ⟨date, id, EFile.ttsMp3⟩ (FileData.binF buf),
                   pathOf date id EFile.ttsMp3)) := by
  constructor
  · intro h
    subst h
    rfl
  · intro buf h
    subst h
    rfl

/-- Closed instance of the amended C6 statement: the `None` argument errors
and an actual one-byte buffer is written. -/
theorem save_event_tts_none_iff_error_witness :
    save_event_tts emptyStore "2024-01-01" "e9" none =
      Except.error "TTS is empty" ∧
    save_event_tts emptyStore "2024-01-01" "e9" (some [5]) =
      Except.ok (setFile emptyStore ⟨"2024-01-01", "e9", EFile.ttsMp3⟩
                   (FileData.binF [5]),
                 pathOf "2024-01-01" "e9" EFile.ttsMp3) :=
  ⟨(save_event_tts_none_iff_error emptyStore "2024-01-01" "e9" none).1 rfl,
   (save_event_tts_none_iff_error emptyStore "2024-01-01" "e9" (some [5])).2
     [5] rfl⟩

theorem slidesOf_length (imgs : List String) :
    ∀ (idx : Nat) (segs : List Segment),
      (slidesOf imgs idx segs).length = segs.length := by
  intro idx segs
  induction segs generalizing idx with
  | nil => rfl
  | cons seg rest ih => simp [slidesOf, ih]

theorem buildSlides_ok (imgs : List String) (h : imgs ≠ []) :
    ∀ (segs : List Segment) (idx : Nat),
      buildSlides imgs idx segs = Except.ok (slidesOf imgs idx segs) := by
  have hlen : imgs.length ≠ 0 := fun hz => h (List.length_eq_zero.mp hz)
  intro segs
  induction segs with
  | nil => intro idx; rfl
  | cons seg rest ih =>
    intro idx
    have hmod : idx % imgs.length < imgs.length :=
      Nat.mod_lt _ (Nat.pos_of_ne_zero hlen)
    have hget : imgs[idx % imgs.length]? = some (imgs[idx % imgs.length]) :=
      List.getElem?_eq_getElem hmod
    simp [buildSlides, pyMod, hlen, hget, ih, slidesOf,
          List.getD_eq_getElem?_getD, Except.map]

theorem slidesOf_background (imgs : List String) :
    ∀ (segs : List Segment) (idx k : Nat), k < segs.length →
      ((slidesOf imgs idx segs).get? k).map Slide.background_image =
        some (some (imgs.getD ((idx + k) % imgs.length) "")) := by
  intro segs
  induction segs with
  | nil => intro idx k hk; simp at hk
  | cons seg rest ih =>
    intro idx k hk
    cases k with
    | zero => simp [slidesOf]
    | succ k' =>
      have hk' : k' < rest.length := by simpa using Nat.lt_of_succ_lt_succ hk
      have := ih (idx + 1) k' hk'
      have harith : idx + 1 + k' = idx + (k' + 1) := by omega
      rw [harith] at this
      simpa [slidesOf] using this

theorem save_event_images_paths (date id : String) :
    ∀ (images : List (String × List Nat)) (s : Store),
      (save_event_images s date id images).2 =
        images.map (fun im => pathOf date id (EFile.image im.1)) := by
  intro images
  induction images with
  | nil => intro s; rfl
  | cons im rest ih => intro s; simp [save_event_images, ih]

/-- C8: `save_event_images` returns the saved paths in the same order as
the input buffers, and slide generation assigns to the slide of segment
index `k` the image at position `k mod (number of images)`, so images are
reused cyclically when there are fewer images than segments. -/
theorem save_images_order_and_cycle (s : Store) (date id : String)
    (images : List (String × List Nat)) (ev : Event) (tr : Transcription)
    (imgs : List String) :
    (save_event_images s date id images).2 =
      images.map (fun im => pathOf date id (EFile.image im.1)) ∧
    (ev.transcription = some tr → ev.images_paths = some imgs → imgs ≠ [] →
      ∃ slides, generate_slides ev = Except.ok slides ∧
        ∀ k, k < slides.length →
          (slides.get? k).map Slide.background_image =
            some (some (imgs.getD (k % imgs.length) ""))) := by
  refine ⟨save_event_images_paths date id images s, ?_⟩
  intro htr himg hne
  refine ⟨slidesOf imgs 0 tr.segments, ?_, ?_⟩
  · simp [generate_slides, htr, himg, List.isEmpty_iff, hne,
          buildSlides_ok imgs hne]
  · intro k hk
    rw [slidesOf_length] at hk
    simpa using slidesOf_background imgs tr.segments 0 k hk

/-- Closed instance of C8: saving buffers `A`, `B`, `C` yields their paths
in that order, and the slides of a five-segment transcription over the three
images `A`, `B`, `C` carry backgrounds `A, B, C, A, B`. -/
theorem save_images_order_and_cycle_witness :
    (save_event_images emptyStore "2024-01-01" "w1" threeBuffers).2 =
      threeBuffers.map
        (fun im => pathOf "2024-01-01" "w1" (EFile.image im.1)) ∧
    (∃ slides, generate_slides evFiveSegs = Except.ok slides ∧
      ∀ k, k < slides.length →
        (slides.get? k).map Slide.background_image =
          some (some (threeImages.getD (k % threeImages.length) ""))) ∧
    (generate_slides evFiveSegs).map
        (fun slides => slides.map Slide.background_image) =
      Except.ok [some "A", some "B", some "C", some "A", some "B"] := by
  refine ⟨(save_images_order_and_cycle emptyStore "2024-01-01" "w1"
            threeBuffers evFiveSegs ⟨5, fiveSegments⟩ threeImages).1,
          (save_images_order_and_cycle emptyStore "2024-01-01" "w1"
            threeBuffers evFiveSegs ⟨5, fiveSegments⟩ threeImages).2
            rfl rfl (by decide), ?_⟩
  rfl

/-- C10: `generate_slides` raises `ValueError` when the transcription is
absent or the image list is absent or empty; under the precondition that
the transcription is present and the image list is non-empty, the modulo
never divides by zero and every image access is in bounds (the result is
`ok`, not a `ZeroDivisionError` or `IndexError`), and exactly one slide is
returned per transcript segment. -/
theorem generate_slides_total (ev : Event) :
    ((ev.transcription = none ∨ ev.images_paths = none ∨
        ev.images_paths = some []) →
      ∃ msg, generate_slides ev = Except.error (PyErr.valueError msg)) ∧
    (∀ tr imgs, ev.transcription = some tr → ev.images_paths = some imgs →
      imgs ≠ [] →
      generate_slides ev = Except.ok (slidesOf imgs 0 tr.segments) ∧
        (slidesOf imgs 0 tr.segments).length = tr.segments.length) := by
  constructor
  · intro h
    cases htr : ev.transcription with
    | none =>
      exact ⟨"Valid transcription is required", by simp [generate_slides, htr]⟩
    | some tr =>
      refine ⟨"Event must have images", ?_⟩
      rcases h with h | h | h
      · rw [htr] at h; exact absurd h (by simp)
      · simp [generate_slides, htr, h]
      · simp [generate_slides, htr, h]
  · intro tr imgs htr himg hne
    refine ⟨?_, slidesOf_length imgs 0 tr.segments⟩
    simp [generate_slides, htr, himg, List.isEmpty_iff, hne,
          buildSlides_ok imgs hne]

/-- Closed instance of C10: an event with no transcription errors out, and
the five-segment, three-image event produces exactly five slides. -/
theorem generate_slides_total_witness :
    (∃ msg, generate_slides { id := "w0", date := "2024-01-01" } =
      Except.error (PyErr.valueError msg)) ∧
    generate_slides evFiveSegs =
      Except.ok (slidesOf threeImages 0 fiveSegments) ∧
    (slidesOf threeImages 0 fiveSegments).length = fiveSegments.length :=
  ⟨(generate_slides_total { id := "w0", date := "2024-01-01" }).1
     (Or.inl rfl),
   ((generate_slides_total evFiveSegs).2 ⟨5, fiveSegments⟩ threeImages
     rfl rfl (by decide)).1,
   ((generate_slides_total evFiveSegs).2 ⟨5, fiveSegments⟩ threeImages
     rfl rfl (by decide)).2⟩

/-- C5: evaluating the `models.py` Event constructor at the failing input —
two Events constructed without an explicit `id` argument — yields the same
id for both.  The dataclass field default `id: uuid.uuid4()` is evaluated
once, when the class body is evaluated, so default-constructed Events share
that single UUID instead of each receiving a fresh, distinct one. -/
theorem default_event_ids_collide :
    (ModelsPy.mkDefault "2024-01-01" "videos/2024-01-01/a").id =
      (ModelsPy.mkDefault "2024-01-02" "videos/2024-01-02/b").id ∧
    (ModelsPy.mkDefault "2024-01-01" "videos/2024-01-01/a").id =
      ModelsPy.uuid4AtClassDefinition :=
  ⟨rfl, rfl⟩

/-- C9: `Settings.__post_init__` sets the per-run date field `today` to the
day after the process-start date (`datetime.date.today() +
datetime.timedelta(days=1)`), never to the process-start date itself —
contradicting the repository's own test, which asserts
`settings.today == datetime.date.today()`. -/
theorem settings_today_is_tomorrow (d : Nat) :
    settings_post_init_today d = d + 1 ∧ settings_post_init_today d ≠ d :=
  ⟨rfl, Nat.succ_ne_self d⟩

theorem textCalls_runSlot (am : Bool) (date id : String) (o : StepOutcomes)
    (texts : List String) :
    textCalls (runSlot am date id o texts).1 = [texts] := by
  rcases o with ⟨tr, ap, ti, de, tg, tt, trn, im⟩
  cases tr <;> cases ti <;> cases de <;> cases tg <;>
    rcases tt with _ | _ | b <;> cases trn <;> cases im <;>
    simp [runSlot, textCalls] <;> split <;> simp [textCalls]

theorem runSlot_texts (am : Bool) (date id : String) (o : StepOutcomes)
    (texts texts' : List String)
    (h : (runSlot am date id o texts).2 = some texts') :
    o.text_r.isSome ∧ texts' = texts ++ [o.text_r.getD ""] := by
  rcases o with ⟨tr, ap, ti, de, tg, tt, trn, im⟩
  cases tr <;> cases ti <;> cases de <;> cases tg <;>
    rcases tt with _ | _ | b <;> cases trn <;> cases im <;>
    simp [runSlot] at h ⊢ <;>
    (try split at h) <;>
    (try simp at h) <;>
    (try exact h.symm)

theorem runSlot_fail (date id : String) (o : StepOutcomes)
    (texts : List String) (h : slotOk o = false) :
    (runSlot false date id o texts).2 = none := by
  rcases o with ⟨tr, ap, ti, de, tg, tt, trn, im⟩
  cases tr <;> cases ti <;> cases de <;> cases tg <;>
    rcases tt with _ | _ | b <;> cases trn <;> cases im <;>
    simp [slotOk] at h <;>
    (try simp [runSlot])

theorem runSlot_ok (date id : String) (o : StepOutcomes)
    (texts : List String) (h : slotOk o = true) :
    runSlot false date id o texts =
      (fullSlotOps date id o texts, some (texts ++ [o.text_r.getD ""])) := by
  rcases o with ⟨tr, ap, ti, de, tg, tt, trn, im⟩
  cases tr <;> cases ti <;> cases de <;> cases tg <;>
    rcases tt with _ | _ | b <;> cases trn <;> cases im <;>
    simp [slotOk] at h <;>
    (try simp [runSlot, fullSlotOps, slotEvent, builtEvent])

theorem runSlots_abort (date : String) (ids : Nat → String)
    (outs : Nat → StepOutcomes) :
    ∀ (k fuel first : Nat) (texts : List String), k < fuel →
      (∀ j, j < k → slotOk (outs (first + j)) = true) →
      slotOk (outs (first + k)) = false →
      (runSlots false date ids outs first fuel texts).2 = true ∧
      (∀ j, j < k →
        Op.dumpEvent (slotEvent date (ids (first + j)) (outs (first + j))) ∈
          (runSlots false date ids outs first fuel texts).1) ∧
      (textCalls (runSlots false date ids outs first fuel texts).1).length =
        k + 1 := by
  intro k
  induction k with
  | zero =>
    intro fuel first texts hk hok hfail
    cases fuel with
    | zero => omega
    | succ f =>
      rw [Nat.add_zero] at hfail
      have h2 := runSlot_fail date (ids first) (outs first) texts hfail
      simp only [runSlots, h2]
      refine ⟨trivial, by simp, ?_⟩
      rw [textCalls_runSlot]
      rfl
  | succ k' ih =>
    intro fuel first texts hk hok hfail
    cases fuel with
    | zero => omega
    | succ f =>
      have h0 : slotOk (outs first) = true := by
        have := hok 0 (Nat.succ_pos k')
        rwa [Nat.add_zero] at this
      have hrs := runSlot_ok date (ids first) (outs first) texts h0
      have hok' : ∀ j, j < k' → slotOk (outs (first + 1 + j)) = true := by
        intro j hj
        have := hok (j + 1) (by omega)
        have harith : first + (j + 1) = first + 1 + j := by omega
        rwa [harith] at this
      have hfail' : slotOk (outs (first + 1 + k')) = false := by
        have harith : first + (k' + 1) = first + 1 + k' := by omega
        rwa [harith] at hfail
      have hrec := ih f (first + 1)
        (texts ++ [(outs first).text_r.getD ""]) (by omega) hok' hfail'
      simp only [runSlots, hrs]
      refine ⟨hrec.1, ?_, ?_⟩
      · intro j hj
        cases j with
        | zero =>
          rw [Nat.add_zero]
          simp [fullSlotOps]
        | succ j' =>
          have harith : first + (j' + 1) = first + 1 + j' := by omega
          rw [harith]
          have := hrec.2.1 j' (by omega)
          simp [this]
      · have h1 : textCalls (fullSlotOps date (ids first) (outs first) texts)
            = [texts] := by
          simp [fullSlotOps, textCalls]
        have h2 := hrec.2.2
        simp only [textCalls, List.filterMap_append, List.length_append]
          at h1 h2 ⊢
        rw [h1]
        simp only [List.length_cons, List.length_nil]
        omega

/-- C3 counterexample: in a 3-slot batch whose middle slot fails (its
speech call returns `None`, so `save_event_tts` raises), the run aborts:
only two text-service calls ever happen — the loop does not resume with the
third slot, although the first slot's completed event record is in the
trace.  Under the claim, the loop would log and resume, so a third text
call would occur. -/
theorem generation_error_kills_batch :
    (generate_events false "2024-01-01" idsFun outsOneBadTts 3).2 = true ∧
    (textCalls (generate_events false "2024-01-01" idsFun
        outsOneBadTts 3).1).length = 2 ∧
    Op.dumpEvent (slotEvent "2024-01-01" "0" (outsIndexed 0)) ∈
      (generate_events false "2024-01-01" idsFun outsOneBadTts 3).1 := by
  refine ⟨rfl, rfl, ?_⟩
  decide

/-- C3 (amended): an uncaught provider error or timeout in any step of one
event aborts the whole remaining batch — the exception propagates out of
the loop, no later slot is attempted (the number of text-service calls is
exactly the failing slot's index plus one) — while the events completed in
earlier slots remain persisted: each earlier slot's full `event.json` dump
is in the emitted trace. -/
theorem generation_abort_preserves_prior (date : String) (ids : Nat → String)
    (outs : Nat → StepOutcomes) (k n : Nat) (hk : k < n)
    (hok : ∀ j, j < k → slotOk (outs j) = true)
    (hfail : slotOk (outs k) = false) :
    (generate_events false date ids outs n).2 = true ∧
    (∀ j, j < k → Op.dumpEvent (slotEvent date (ids j) (outs j)) ∈
      (generate_events false date ids outs n).1) ∧
    (textCalls (generate_events false date ids outs n).1).length = k + 1 := by
  have h := runSlots_abort date ids outs k n 0 [] hk
    (by intro j hj; rw [Nat.zero_add]; exact hok j hj)
    (by rw [Nat.zero_add]; exact hfail)
  refine ⟨h.1, ?_, h.2.2⟩
  intro j hj
  have := h.2.1 j hj
  rwa [Nat.zero_add] at this

/-- Closed instance of the amended C3 statement, at the 3-slot batch whose
middle slot fails: the run aborts, slot 0's record dump is present, and
exactly two text calls were made. -/
theorem generation_abort_preserves_prior_witness :
    (generate_events false "2024-01-01" idsFun outsOneBadTts 3).2 = true ∧
    (∀ j, j < 1 →
      Op.dumpEvent (slotEvent "2024-01-01" (idsFun j) (outsOneBadTts j)) ∈
        (generate_events false "2024-01-01" idsFun outsOneBadTts 3).1) ∧
    (textCalls (generate_events false "2024-01-01" idsFun
        outsOneBadTts 3).1).length = 1 + 1 :=
  generation_abort_preserves_prior "2024-01-01" idsFun outsOneBadTts 1 3
    (by omega)
    (by intro j hj
        have : j = 0 := by omega
        subst this
        decide)
    (by decide)

/-- C4 counterexample: the complete trace of one fully successful event
contains exactly one `event.json` dump — the final op — although the record
is mutated field by field throughout (title, description and tags are set
between the `text.txt` and `tts.mp3` writes, with no dump in between).  A
process killed after those mutations but before the final op has no
`event.json` on disk for the event at all: replaying the two-op crash
prefix leaves a store with no `event.json` entry, so a crash loses every
completed step of the current event since `save_event_text`, not just the
in-flight step. -/
theorem record_dumped_once_at_end :
    (generate_events false "2024-01-01" idsFun outsIndexed 1).1 =
      [Op.textCall [], Op.saveText "2024-01-01" "0" "t0",
       Op.saveTts "2024-01-01" "0" [1, 2, 3],
       Op.saveTranscription "2024-01-01" "0"
         ⟨4, [⟨0, 2, "segment one"⟩, ⟨2, 4, "segment two"⟩]⟩,
       Op.saveImages "2024-01-01" "0"
         [("0_image_0.png", [9]), ("1_image_0.png", [8])],
       Op.dumpEvent (slotEvent "2024-01-01" "0" (outsIndexed 0))] ∧
    countDumps (generate_events false "2024-01-01" idsFun outsIndexed 1).1
      = 1 ∧
    (applyOps emptyStore
        (List.take 2 (generate_events false "2024-01-01" idsFun
          outsIndexed 1).1)).all
      (fun p => decide (p.1.file ≠ EFile.eventJson)) = true := by
  refine ⟨?_, rfl, rfl⟩
  decide

/-- C4 (amended): within one event, the text, audio, transcription and
image artifacts are each persisted immediately when produced, in step
order; but the title, description and tags mutations are only in memory,
and the full `event.json` record is persisted exactly once, by the final op
of the slot — no dump occurs among the five preceding ops.  A crash
mid-event therefore keeps the artifacts written so far (and everything from
earlier slots, whose ops precede in the trace) but loses the in-memory
fields and the current event's record unless the final dump completed. -/
theorem per_slot_persistence_order (date id : String) (o : StepOutcomes)
    (texts : List String) (h : slotOk o = true) :
    runSlot false date id o texts =
      (fullSlotOps date id o texts, some (texts ++ [o.text_r.getD ""])) ∧
    countDumps (fullSlotOps date id o texts) = 1 ∧
    (fullSlotOps date id o texts).getLast? =
      some (Op.dumpEvent (slotEvent date id o)) ∧
    countDumps (List.take 5 (fullSlotOps date id o texts)) = 0 := by
  refine ⟨runSlot_ok date id o texts h, ?_, ?_, ?_⟩ <;>
    simp [fullSlotOps, countDumps]

/-- Closed instance of the amended C4 statement at a fully successful
slot. -/
theorem per_slot_persistence_order_witness :
    runSlot false "2024-01-01" "0" okOut [] =
      (fullSlotOps "2024-01-01" "0" okOut [],
       some ([] ++ [okOut.text_r.getD ""])) ∧
    countDumps (fullSlotOps "2024-01-01" "0" okOut []) = 1 ∧
    (fullSlotOps "2024-01-01" "0" okOut []).getLast? =
      some (Op.dumpEvent (slotEvent "2024-01-01" "0" okOut)) ∧
    countDumps (List.take 5 (fullSlotOps "2024-01-01" "0" okOut [])) = 0 :=
  per_slot_persistence_order "2024-01-01" "0" okOut [] (by decide)

theorem producedTexts_succ (outs : Nat → StepOutcomes) (first m : Nat) :
    producedTexts outs first (m + 1) =
      (outs first).text_r.getD "" :: producedTexts outs (first + 1) m := by
  simp only [producedTexts, List.range_succ_eq_map, List.map_cons,
             Nat.add_zero, List.map_map]
  congr 1
  apply List.map_congr_left
  intro j hj
  have harith : first + (j + 1) = first + 1 + j := by omega
  simp [Function.comp, harith]

theorem runSlots_textCalls (am : Bool) (date : String) (ids : Nat → String)
    (outs : Nat → StepOutcomes) :
    ∀ (fuel first : Nat) (texts : List String) (m : Nat),
      m < (textCalls (runSlots am date ids outs first fuel texts).1).length →
      (textCalls (runSlots am date ids outs first fuel texts).1).get? m =
        some (texts ++ producedTexts outs first m) ∧
      (∀ j, j < m → (outs (first + j)).text_r.isSome) := by
  intro fuel
  induction fuel with
  | zero =>
    intro first texts m hm
    simp [runSlots, textCalls] at hm
  | succ f ih =>
    intro first texts m hm
    have htc := textCalls_runSlot am date (ids first) (outs first) texts
    cases hr : (runSlot am date (ids first) (outs first) texts).2 with
    | none =>
      simp only [runSlots, hr, htc] at hm ⊢
      have hm0 : m = 0 := by simpa using hm
      subst hm0
      exact ⟨by simp [producedTexts], by omega⟩
    | some texts' =>
      obtain ⟨hsome, heq⟩ :=
        runSlot_texts am date (ids first) (outs first) texts texts' hr
      simp only [runSlots, hr] at hm ⊢
      rw [textCalls, List.filterMap_append, ← textCalls, ← textCalls, htc]
        at hm ⊢
      cases m with
      | zero =>
        exact ⟨by simp [producedTexts], by omega⟩
      | succ m' =>
        simp only [List.cons_append, List.nil_append, List.length_cons,
                   List.get?_cons_succ] at hm ⊢
        have hm' : m' < (textCalls (runSlots am date ids outs (first + 1) f
            texts').1).length := by omega
        obtain ⟨hget, hsomes⟩ := ih (first + 1) texts' m' hm'
        constructor
        · rw [hget, heq, producedTexts_succ]
          simp
        · intro j hj
          cases j with
          | zero =>
            rw [Nat.add_zero]
            exact hsome
          | succ j' =>
            have harith : first + (j' + 1) = first + 1 + j' := by omega
            rw [harith]
            exact hsomes j' (by omega)

/-- C7: batch-scoped duplicate avoidance.  In any batch run, the text
service's call number `m` (0-based) receives as its existing-texts argument
exactly the `m` texts produced by the previous calls of the same batch, in
generation order (the batch starts from an empty list, and every produced
text — approved or not — is appended before the next call). -/
theorem text_call_receives_prior_texts (am : Bool) (date : String)
    (ids : Nat → String) (outs : Nat → StepOutcomes) (n m : Nat)
    (hm : m < (textCalls (generate_events am date ids outs n).1).length) :
    (textCalls (generate_events am date ids outs n).1).get? m =
      some (producedTexts outs 0 m) ∧
    (∀ j, j < m → (outs j).text_r.isSome) := by
  have h := runSlots_textCalls am date ids outs n 0 [] m hm
  refine ⟨by simpa using h.1, ?_⟩
  intro j hj
  have := h.2 j hj
  rwa [Nat.zero_add] at this

/-- Closed instance of C7 at a 3-slot batch: the third call (index 2)
receives exactly the two previously generated texts, in generation
order. -/
theorem text_call_receives_prior_texts_witness :
    (textCalls (generate_events false "2024-01-01" idsFun
        outsIndexed 3).1).get? 2 = some (producedTexts outsIndexed 0 2) ∧
    producedTexts outsIndexed 0 2 = ["t0", "t1"] :=
  ⟨(text_call_receives_prior_texts false "2024-01-01" idsFun outsIndexed 3 2
      (by decide)).1, rfl⟩
